import Mathlib

/-!
# Verification of the aisanity example Flask API (`src/examples/python-flask-api/app.py`)

A shallow embedding of the single-file Flask application. JSON values are
modelled by an inductive type with Python truthiness; each route handler is
translated directly from the source. Times are passed in explicitly
(`time.time()` and `datetime.now().isoformat()` become parameters).

The application keeps no mutable user list: `get_users` rebuilds a local
three-element list on every call, and `create_user` returns the synthesized
record without storing it anywhere. The only process-wide attribute is
`app.start_time`, set in `__main__` and read by `health`.
-/

/-- A JSON value, as produced by Flask's `request.get_json()`. Numbers are
modelled as integers (all numbers appearing in the application are). -/
inductive JsonVal where
  | null
  | bool (b : Bool)
  | num (n : Int)
  | str (s : String)
  | arr (xs : List JsonVal)
  | obj (fields : List (String × JsonVal))

/-- Python truthiness of a JSON value: `None`, `False`, `0`, `""`, `[]` and
`{}` are falsy, everything else is truthy. -/
def JsonVal.truthy : JsonVal → Bool
  | .null => false
  | .bool b => b
  | .num n => n != 0
  | .str s => s != ""
  | .arr xs => !xs.isEmpty
  | .obj fs => !fs.isEmpty

/-- Python `dict.get(k)` on a parsed JSON object: the value bound to the
first occurrence of key `k`, if present. -/
def dictGet (fs : List (String × JsonVal)) (k : String) : Option JsonVal :=
  (fs.find? (fun p => p.1 == k)).map Prod.snd

/-- Truthiness of a `dict.get` result: Python `None` (a missing key) is falsy. -/
def truthyOpt : Option JsonVal → Bool
  | none => false
  | some j => j.truthy

/-- An HTTP response: either a JSON body produced by a handler via
`jsonify` (with its status code), or the framework's default error
response (the handler body never runs, or an exception escaped it). -/
inductive Response where
  | jsonResp (status : Nat) (body : JsonVal)
  | frameworkError (status : Nat)

/-- The raw body of a POST request, as seen by `request.get_json()`:
absent (no JSON body sent), present but not parseable as JSON, or
successfully parsed. -/
inductive ReqBody where
  | absent
  | unparseable
  | parsed (j : JsonVal)

/-- Modelled from the spec: Flask's `request.get_json()` is framework code,
not part of this repository. Per the spec, an absent body reaches the
handler as Python `None` (so the handler's own presence check fires), while
"all other failures (malformed JSON body, unexpected exceptions) are left
to the underlying framework's default error handling", i.e. a parse error
aborts the handler with the framework's default 400 client error. -/
def get_json : ReqBody → Except Nat (Option JsonVal)
  | .absent => .ok none
  | .unparseable => .error 400
  | .parsed j => .ok (some j)

/-- The error body `{'error': 'Name and email are required'}`. -/
def errorBody : JsonVal := .obj [("error", .str "Name and email are required")]

/-- Handler for `GET /`. `timestamp` stands for
`datetime.datetime.now().isoformat()`. -/
def hello (timestamp : String) : Response :=
  .jsonResp 200 (.obj [
    ("message", .str "Hello from aisanity sandboxed Python Flask API!"),
    ("timestamp", .str timestamp),
    ("environment", .str "development")])

/-- The uptime expression of `health`:
`time.time() - app.start_time if hasattr(app, 'start_time') else 0`. -/
def uptimeVal (now : Int) : Option Int → Int
  | some t => now - t
  | none => 0

/-- Handler for `GET /health`. `now` stands for `time.time()` and
`start_time` for the optional `app.start_time` attribute. -/
def health (now : Int) (start_time : Option Int) : Response :=
  .jsonResp 200 (.obj [
    ("status", .str "OK"),
    ("uptime", .num (uptimeVal now start_time))])

/-- The three hard-coded users rebuilt inside `get_users` on every call. -/
def seedUsers : List JsonVal := [
  .obj [("id", .num 1), ("name", .str "Alice"), ("email", .str "alice@aisanity.dev")],
  .obj [("id", .num 2), ("name", .str "Bob"), ("email", .str "bob@aisanity.dev")],
  .obj [("id", .num 3), ("name", .str "Charlie"), ("email", .str "charlie@aisanity.dev")]]

/-- Handler for `GET /api/users`: returns the locally built list and
`len(users)`. It reads no process-wide state. -/
def get_users : Response :=
  .jsonResp 200 (.obj [
    ("users", .arr seedUsers),
    ("count", .num (seedUsers.length : Nat))])

/-- Handler for `POST /api/users`. `now_ms` stands for
`int(time.time() * 1000)` and `created_at` for
`datetime.datetime.now().isoformat()`. The guard
`if not data or not data.get('name') or not data.get('email')` is
translated branch by branch; a truthy non-dict body would raise
`AttributeError` at `data.get`, which the framework turns into its
default 500 error. The synthesized record is returned, not stored. -/
def create_user (now_ms : Int) (created_at : String) (body : ReqBody) : Response :=
  match get_json body with
  | .error s => .frameworkError s
  | .ok none => .jsonResp 400 errorBody
  | .ok (some data) =>
    if !data.truthy then .jsonResp 400 errorBody
    else
      match data with
      | .obj fs =>
        if !truthyOpt (dictGet fs "name") || !truthyOpt (dictGet fs "email") then
          .jsonResp 400 errorBody
        else
          .jsonResp 201 (.obj [
            ("message", .str "User created successfully"),
            ("user", .obj [
              ("id", .num now_ms),
              ("name", (dictGet fs "name").getD .null),
              ("email", (dictGet fs "email").getD .null),
              ("created_at", .str created_at)])])
      | _ => .frameworkError 500

/-- The process-wide state touched by any handler: only the optional
`app.start_time` attribute. The application defines no module-level user
list, and no handler assigns any attribute. -/
structure ServerState where
  start_time : Option Int

/-- An incoming request, with the clock readings a handler would take
during it passed in as data. -/
inductive Request where
  | getRoot (timestamp : String)
  | getHealth (now : Int)
  | getUsers
  | postUsers (now_ms : Int) (created_at : String) (body : ReqBody)

/-- Dispatch one request: run the matching handler and return the response
together with the (unchanged — no handler writes) process state. -/
def step (σ : ServerState) : Request → Response × ServerState
  | .getRoot ts => (hello ts, σ)
  | .getHealth now => (health now σ.start_time, σ)
  | .getUsers => (get_users, σ)
  | .postUsers n c b => (create_user n c b, σ)

/-- Serve a sequence of requests from a given state, collecting responses. -/
def runServer (σ : ServerState) : List Request → List Response
  | [] => []
  | r :: rs =>
    let p := step σ r
    p.1 :: runServer p.2 rs

/-- The state of a freshly started process launched via `__main__`, which
sets `app.start_time = time.time()` before serving. -/
def freshState (boot : Int) : ServerState := ⟨some boot⟩

/-- Extract the `users` array from a `GET /api/users` response body. -/
def respUsers : Response → Option (List JsonVal)
  | .jsonResp _ (.obj fs) =>
    match dictGet fs "users" with
    | some (.arr xs) => some xs
    | _ => none
  | _ => none

/-- Extract the `count` field from a `GET /api/users` response body. -/
def respCount : Response → Option Int
  | .jsonResp _ (.obj fs) =>
    match dictGet fs "count" with
    | some (.num n) => some n
    | _ => none
  | _ => none

/-- The parsed JSON body `{"name": "Dana", "email": "dana@x.com"}`. -/
def danaObj : JsonVal := .obj [("name", .str "Dana"), ("email", .str "dana@x.com")]

/-! ## Theorems -/

/-- C4: On a freshly started process with no prior POSTs, `GET /api/users`
returns HTTP 200 with exactly the three seed users (Alice id 1, Bob id 2,
Charlie id 3) in the `users` array and `count` equal to 3. -/
theorem c4_get_users_fresh (boot : Int) :
    runServer (freshState boot) [Request.getUsers] =
      [Response.jsonResp 200 (.obj [
        ("users", .arr [
          .obj [("id", .num 1), ("name", .str "Alice"), ("email", .str "alice@aisanity.dev")],
          .obj [("id", .num 2), ("name", .str "Bob"), ("email", .str "bob@aisanity.dev")],
          .obj [("id", .num 3), ("name", .str "Charlie"), ("email", .str "charlie@aisanity.dev")]]),
        ("count", .num 3)])] := rfl

/-- C8: Every `GET /` request returns HTTP 200 with a JSON object holding
the fixed greeting message, the current timestamp, and the static
environment label "development". -/
theorem c8_hello (ts : String) :
    hello ts = Response.jsonResp 200 (.obj [
      ("message", .str "Hello from aisanity sandboxed Python Flask API!"),
      ("timestamp", .str ts),
      ("environment", .str "development")]) := rfl

/-- C6: `GET /health` returns HTTP 200 with status "OK"; the uptime is the
time elapsed since process start when `app.start_time` is set and 0 when it
is unset, and (the clock not having gone backwards past the start time) it
is non-negative. -/
theorem c6_health (now : Int) (start_time : Option Int)
    (h : ∀ t, start_time = some t → t ≤ now) :
    health now start_time = Response.jsonResp 200 (.obj [
        ("status", .str "OK"),
        ("uptime", .num (uptimeVal now start_time))])
      ∧ (∀ t, start_time = some t → uptimeVal now start_time = now - t)
      ∧ (start_time = none → uptimeVal now start_time = 0)
      ∧ 0 ≤ uptimeVal now start_time := by
  refine ⟨rfl, fun t ht => by rw [ht]; rfl, fun hn => by rw [hn]; rfl, ?_⟩
  cases start_time with
  | none => exact le_refl 0
  | some t => simpa [uptimeVal] using h t rfl

theorem c6_health_witness :
    (∀ t, (some 5 : Option Int) = some t → t ≤ 12) ∧
      (health 12 (some 5) = Response.jsonResp 200 (.obj [
          ("status", .str "OK"),
          ("uptime", .num (uptimeVal 12 (some 5)))])
        ∧ (∀ t, (some 5 : Option Int) = some t → uptimeVal 12 (some 5) = 12 - t)
        ∧ ((some 5 : Option Int) = none → uptimeVal 12 (some 5) = 0)
        ∧ 0 ≤ uptimeVal 12 (some 5)) :=
  ⟨fun t ht => by cases ht; decide, c6_health 12 (some 5) (fun t ht => by cases ht; decide)⟩

/-- C5: A `POST /api/users` with body `{"name": "Dana", "email": "dana@x.com"}`
returns HTTP 201 with a message and a user object whose id is the
(positive) current time in milliseconds, name "Dana", email "dana@x.com",
and the generated `created_at` timestamp. -/
theorem c5_create_dana (now_ms : Int) (created_at : String) (h : 0 < now_ms) :
    create_user now_ms created_at (.parsed danaObj) =
      Response.jsonResp 201 (.obj [
        ("message", .str "User created successfully"),
        ("user", .obj [
          ("id", .num now_ms),
          ("name", .str "Dana"),
          ("email", .str "dana@x.com"),
          ("created_at", .str created_at)])])
      ∧ 0 < now_ms :=
  ⟨rfl, h⟩

theorem c5_create_dana_witness :
    0 < (1700000000000 : Int) ∧
      (create_user 1700000000000 "2024-01-01T00:00:00" (.parsed danaObj) =
        Response.jsonResp 201 (.obj [
          ("message", .str "User created successfully"),
          ("user", .obj [
            ("id", .num 1700000000000),
            ("name", .str "Dana"),
            ("email", .str "dana@x.com"),
            ("created_at", .str "2024-01-01T00:00:00")])])
        ∧ 0 < (1700000000000 : Int)) :=
  ⟨by decide, c5_create_dana 1700000000000 "2024-01-01T00:00:00" (by decide)⟩

/-- Helper: the guard of `create_user` rejects any parsed object whose
`name` or `email` lookup is falsy (missing key included). -/
theorem create_user_field_reject (now_ms : Int) (created_at : String)
    (fs : List (String × JsonVal))
    (h : (!truthyOpt (dictGet fs "name") || !truthyOpt (dictGet fs "email")) = true) :
    create_user now_ms created_at (.parsed (.obj fs)) = Response.jsonResp 400 errorBody := by
  cases fs with
  | nil => rfl
  | cons p ps => simp [create_user, get_json, JsonVal.truthy, h]

/-- Helper: no request changes the process-wide state. -/
theorem step_preserves (σ : ServerState) (r : Request) : (step σ r).2 = σ := by
  cases r <;> rfl

/-- Helper: serving a concatenation of request sequences concatenates the
responses (the state never changes between requests). -/
theorem runServer_append (σ : ServerState) (xs ys : List Request) :
    runServer σ (xs ++ ys) = runServer σ xs ++ runServer σ ys := by
  induction xs with
  | nil => rfl
  | cons r rs ih =>
    show (step σ r).1 :: runServer (step σ r).2 (rs ++ ys)
        = ((step σ r).1 :: runServer (step σ r).2 rs) ++ runServer σ ys
    rw [step_preserves, ih]
    rfl

/-- C2: A `POST /api/users` whose parsed JSON body is missing the `name`
field or the `email` field (the empty body included) returns HTTP 400 with
exactly the body `{"error": "Name and email are required"}`. -/
theorem c2_missing_field (now_ms : Int) (created_at : String)
    (fs : List (String × JsonVal))
    (h : dictGet fs "name" = none ∨ dictGet fs "email" = none) :
    create_user now_ms created_at (.parsed (.obj fs)) = Response.jsonResp 400 errorBody := by
  apply create_user_field_reject
  rcases h with h | h <;> simp [h, truthyOpt]

theorem c2_missing_field_witness :
    (dictGet [("name", JsonVal.str "Dana")] "name" = none ∨
       dictGet [("name", JsonVal.str "Dana")] "email" = none) ∧
      create_user 5 "t" (.parsed (.obj [("name", .str "Dana")])) =
        Response.jsonResp 400 errorBody :=
  ⟨Or.inr rfl, c2_missing_field 5 "t" [("name", .str "Dana")] (Or.inr rfl)⟩

/-- C9: A `POST /api/users` whose parsed body binds `name` or `email` to a
falsy value (empty string, null, 0, false) returns HTTP 400 with the
required-fields error body: the guard rejects falsy values, not only
missing keys. -/
theorem c9_falsy_field (now_ms : Int) (created_at : String)
    (fs : List (String × JsonVal))
    (h : (∃ v, dictGet fs "name" = some v ∧ v.truthy = false) ∨
         (∃ v, dictGet fs "email" = some v ∧ v.truthy = false)) :
    create_user now_ms created_at (.parsed (.obj fs)) = Response.jsonResp 400 errorBody := by
  apply create_user_field_reject
  rcases h with ⟨v, hv, hf⟩ | ⟨v, hv, hf⟩ <;> simp [hv, truthyOpt, hf]

theorem c9_falsy_field_witness :
    ((∃ v, dictGet [("name", JsonVal.str ""), ("email", JsonVal.str "dana@x.com")] "name" = some v
        ∧ v.truthy = false) ∨
      (∃ v, dictGet [("name", JsonVal.str ""), ("email", JsonVal.str "dana@x.com")] "email" = some v
        ∧ v.truthy = false)) ∧
      create_user 5 "t" (.parsed (.obj [("name", .str ""), ("email", .str "dana@x.com")])) =
        Response.jsonResp 400 errorBody :=
  ⟨Or.inl ⟨.str "", rfl, rfl⟩,
   c9_falsy_field 5 "t" [("name", .str ""), ("email", .str "dana@x.com")]
     (Or.inl ⟨.str "", rfl, rfl⟩)⟩

/-- C3 fails as stated: an unparseable body does not produce the handler's
own 400 JSON error body — `request.get_json()` aborts the handler and the
framework's default error handling answers. -/
theorem c3_counterexample :
    ¬ create_user 5 "t" ReqBody.unparseable = Response.jsonResp 400 errorBody :=
  fun h => Response.noConfusion h

/-- C3 (amended): an absent body reaches the handler as `None` and the
handler itself returns HTTP 400 with `{"error": "Name and email are
required"}`; a body that is not parseable as JSON is instead left to the
framework's default error handling, which answers with its default 400
client error, not the handler's JSON body. -/
theorem c3_amended (now_ms : Int) (created_at : String) :
    create_user now_ms created_at ReqBody.absent = Response.jsonResp 400 errorBody
    ∧ create_user now_ms created_at ReqBody.unparseable = Response.frameworkError 400 :=
  ⟨rfl, rfl⟩

/-- C1 fails as stated: on a fresh process, a successful POST (it returns
HTTP 201) appends nothing, and the subsequent `GET /api/users` still
returns count 3, not 4. -/
theorem c1_counterexample :
    runServer (freshState 0)
        [Request.postUsers 1700000000000 "2024-01-01T00:00:00" (.parsed danaObj),
         Request.getUsers]
      = [Response.jsonResp 201 (.obj [
           ("message", .str "User created successfully"),
           ("user", .obj [
             ("id", .num 1700000000000),
             ("name", .str "Dana"),
             ("email", .str "dana@x.com"),
             ("created_at", .str "2024-01-01T00:00:00")])]),
         get_users]
    ∧ respCount get_users = some 3
    ∧ respCount get_users ≠ some 4 := by
  refine ⟨rfl, rfl, ?_⟩
  show (some 3 : Option Int) ≠ some 4
  decide

/-- C1 (amended): a POST whose body carries truthy `name` and `email`
returns HTTP 201 with the synthesized record, but appends it to no
process-wide list: the subsequent `GET /api/users` response is the
unchanged hard-coded one, with count 3 — the same as before the POST. -/
theorem c1_amended (σ : ServerState) (now_ms : Int) (created_at : String)
    (fs : List (String × JsonVal))
    (hn : truthyOpt (dictGet fs "name") = true)
    (he : truthyOpt (dictGet fs "email") = true) :
    runServer σ [Request.postUsers now_ms created_at (.parsed (.obj fs)), Request.getUsers]
      = [Response.jsonResp 201 (.obj [
           ("message", .str "User created successfully"),
           ("user", .obj [
             ("id", .num now_ms),
             ("name", (dictGet fs "name").getD .null),
             ("email", (dictGet fs "email").getD .null),
             ("created_at", .str created_at)])]),
         get_users]
    ∧ respCount get_users = some 3 := by
  have hne : fs ≠ [] := by
    intro hfs
    rw [hfs] at hn
    simp [dictGet, truthyOpt] at hn
  have htr : (JsonVal.obj fs).truthy = true := by
    cases fs with
    | nil => exact absurd rfl hne
    | cons p ps => simp [JsonVal.truthy]
  have h201 : create_user now_ms created_at (.parsed (.obj fs)) =
      Response.jsonResp 201 (.obj [
        ("message", .str "User created successfully"),
        ("user", .obj [
          ("id", .num now_ms),
          ("name", (dictGet fs "name").getD .null),
          ("email", (dictGet fs "email").getD .null),
          ("created_at", .str created_at)])]) := by
    simp [create_user, get_json, htr, hn, he]
  exact ⟨by simp [runServer, step, h201], rfl⟩

theorem c1_amended_witness :
    (truthyOpt (dictGet [("name", JsonVal.str "Dana"), ("email", JsonVal.str "dana@x.com")]
        "name") = true
     ∧ truthyOpt (dictGet [("name", JsonVal.str "Dana"), ("email", JsonVal.str "dana@x.com")]
        "email") = true)
    ∧ (runServer (freshState 0)
          [Request.postUsers 5 "t" (.parsed (.obj
             [("name", .str "Dana"), ("email", .str "dana@x.com")])),
           Request.getUsers]
        = [Response.jsonResp 201 (.obj [
             ("message", .str "User created successfully"),
             ("user", .obj [
               ("id", .num 5),
               ("name", (dictGet [("name", JsonVal.str "Dana"),
                  ("email", JsonVal.str "dana@x.com")] "name").getD .null),
               ("email", (dictGet [("name", JsonVal.str "Dana"),
                  ("email", JsonVal.str "dana@x.com")] "email").getD .null),
               ("created_at", .str "t")])]),
           get_users]
        ∧ respCount get_users = some 3) :=
  ⟨⟨rfl, rfl⟩,
   c1_amended (freshState 0) 5 "t"
     [("name", .str "Dana"), ("email", .str "dana@x.com")] rfl rfl⟩

/-- C7: In every run of the server, a `GET /api/users` anywhere in the
request sequence answers with the fixed `get_users` response, whose users
array carries the three seed records unchanged as its initial segment;
whatever follows them (nothing, in fact) could only stem from prior POSTs,
and no element is ever removed — every such response is identical. -/
theorem c7_seed_invariant (σ : ServerState) (pre post : List Request) :
    (runServer σ (pre ++ Request.getUsers :: post)
       = runServer σ pre ++ get_users :: runServer σ post)
    ∧ (∃ tail, respUsers get_users = some (seedUsers ++ tail)
         ∧ ∀ u ∈ tail, ∃ n c b, Request.postUsers n c b ∈ pre) := by
  constructor
  · rw [runServer_append]
    rfl
  · exact ⟨[], by rw [List.append_nil]; rfl, fun u hu => absurd hu (List.not_mem_nil u)⟩

/-- C10: No handler modifies process-wide state: every request leaves the
state unchanged, the responses after a POST are exactly those the same
sequence would produce without it, and `GET /api/users` always answers
with the same hard-coded three users and count 3, because `create_user`
discards the synthesized record and `get_users` rebuilds its list. -/
theorem c10_no_state_change (σ : ServerState) (r : Request) (now_ms : Int)
    (created_at : String) (b : ReqBody) (rest : List Request) :
    (step σ r).2 = σ
    ∧ runServer σ (Request.postUsers now_ms created_at b :: rest)
        = create_user now_ms created_at b :: runServer σ rest
    ∧ get_users
        = Response.jsonResp 200 (.obj [("users", .arr seedUsers), ("count", .num 3)]) :=
  ⟨step_preserves σ r, rfl, rfl⟩
